import Mathlib

/-!
Shallow embedding of the mbox-converter's body-resolution and sanitization
core (src/email_parser.py, src/html_sanitizer.py, src/utils.py, src/main.py).

Strings are modelled as `List Char` (Python `str` is a sequence of code
points, as is `List Char`).  The Python code transforms text with `re.sub`
over a fixed set of patterns; each pattern is embedded as a hand-specialised
scanner implementing exactly the leftmost-match / greedy / lazy semantics of
the Python pattern, documented at each definition.  Byte-payload decoding
(`bytes.decode(..., errors='ignore')`, which never raises) is abstracted: a
part's payload is modelled as the decoded string, `none` standing for an
absent or empty raw payload.
-/

/-- Python regex `IGNORECASE` matching of one *pattern* character `p`
(always a lowercase letter or a symbol in the source's patterns) against a
subject character `c`: equal, or `c` is the ASCII uppercase of a lowercase
letter `p`. -/
def ciMatch (p c : Char) : Bool :=
  p == c || ('a' ≤ p && p ≤ 'z' && c.toNat + 32 == p.toNat)

/-- Case-insensitive "the subject starts with the pattern". -/
def startsWithCI : List Char → List Char → Bool
  | [], _ => true
  | _ :: _, [] => false
  | p :: ps, c :: cs => ciMatch p c && startsWithCI ps cs

/-- Case-sensitive prefix test. -/
def startsWithCS : List Char → List Char → Bool
  | [], _ => true
  | _ :: _, [] => false
  | p :: ps, c :: cs => p == c && startsWithCS ps cs

/-- Python's case-sensitive substring test (`sub in s`). -/
def containsSub (sub : List Char) : List Char → Bool
  | [] => startsWithCS sub []
  | c :: cs => startsWithCS sub (c :: cs) || containsSub sub cs

/-- Suffix just after the first case-insensitive occurrence of `pat`
(implements the lazy `.*?pat` with `re.DOTALL`); `none` if absent. -/
def dropThroughCI (pat : List Char) : List Char → Option (List Char)
  | [] => if startsWithCI pat [] then some [] else none
  | c :: cs =>
    if startsWithCI pat (c :: cs) then some (List.drop pat.length (c :: cs))
    else dropThroughCI pat cs

/-- Suffix just after the first occurrence of the character `t`
(implements `[^t]*t`); `none` if absent. -/
def dropThroughChar (t : Char) : List Char → Option (List Char)
  | [] => none
  | c :: cs => if c == t then some cs else dropThroughChar t cs

/-- Python's whitespace predicate (`str.isspace()`), the single set CPython
uses both for `str.strip()` and for the `re` module's Unicode `\s`: the
ASCII whitespace characters, the separator controls U+001C–U+001F, NEL
(U+0085), NBSP (U+00A0), Ogham space mark, the U+2000–U+200A spaces, the
line and paragraph separators, narrow NBSP, medium mathematical space and
the ideographic space. -/
def pyIsSpace (c : Char) : Bool :=
  c == ' ' || c == '\t' || c == '\n' || c == '\r' || c == '\x0b' || c == '\x0c'
  || ('\x1c' ≤ c && c ≤ '\x1f') || c == '\x85' || c == '\xa0'
  || c == '\u1680' || ('\u2000' ≤ c && c ≤ '\u200A')
  || c == '\u2028' || c == '\u2029' || c == '\u202F' || c == '\u205F' || c == '\u3000'

/-- Python's `\w` word class (ASCII range). -/
def pyIsWord (c : Char) : Bool := c.isAlpha || c.isDigit || c == '_'

/-- `str.strip()`: remove leading and trailing whitespace. -/
def pyStrip (s : List Char) : List Char :=
  ((s.dropWhile pyIsSpace).reverse.dropWhile pyIsSpace).reverse

/-- Python `str.lower()` (ASCII). -/
def toLowerL (s : List Char) : List Char := s.map Char.toLower

/-- One step of Python's `str.replace`: non-overlapping occurrences replaced
left to right.  Fuel-indexed so that it reduces structurally; every step
consumes at least one subject character, so fuel `s.length + 1` suffices. -/
def pyReplaceAux (pat rep : List Char) : Nat → List Char → List Char
  | 0, s => s
  | _ + 1, [] => []
  | n + 1, c :: cs =>
    if startsWithCS pat (c :: cs) && !pat.isEmpty then
      rep ++ pyReplaceAux pat rep n (List.drop pat.length (c :: cs))
    else c :: pyReplaceAux pat rep n cs

/-- Python's `str.replace(pat, rep)` (all occurrences). -/
def pyReplace (pat rep : List Char) (s : List Char) : List Char :=
  pyReplaceAux pat rep (s.length + 1) s

/-- `re.sub` driver: scan left to right; at each position try the matcher
(which returns the suffix after a match starting exactly here); on a match,
emit `rep` applied to the matched text and continue after it, otherwise
keep the character.  Every matcher below consumes at least one character,
so fuel `s.length + 1` suffices. -/
def scanSub (m : List Char → Option (List Char)) (rep : List Char → List Char) :
    Nat → List Char → List Char
  | 0, s => s
  | _ + 1, [] => []
  | n + 1, c :: cs =>
    match m (c :: cs) with
    | some rest =>
      rep (List.take ((c :: cs).length - rest.length) (c :: cs)) ++ scanSub m rep n rest
    | none => c :: scanSub m rep n cs

/-- `re.findall` driver: successive non-overlapping leftmost matches,
collecting the matched texts. -/
def scanFindAll (m : List Char → Option (List Char)) : Nat → List Char → List (List Char)
  | 0, _ => []
  | _ + 1, [] => []
  | n + 1, c :: cs =>
    match m (c :: cs) with
    | some rest => List.take ((c :: cs).length - rest.length) (c :: cs) :: scanFindAll m n rest
    | none => scanFindAll m n cs

/-- First success of `f` over a list (used for regex backtracking over
candidate split points, highest-priority candidate first). -/
def firstSome (f : List Char → Option (List Char)) : List (List Char) → Option (List Char)
  | [] => none
  | a :: rest =>
    match f a with
    | some b => some b
    | none => firstSome f rest

/-! ## html_sanitizer.py — HTMLSanitizer (the spec's ContentSanitizer)

The mutable `stats` counters are omitted: they are observability only and
do not affect the returned string (each rule computes its output before
touching them). -/

/-- Configuration flags from src/config.py (all `True` by default). -/
structure SanitizerConfig where
  strip_external_images : Bool
  strip_base64_images : Bool
  strip_inline_styles : Bool
  strip_external_stylesheets : Bool
  strip_tracking_pixels : Bool

/-- The defaults in src/config.py. -/
def defaultConfig : SanitizerConfig :=
  ⟨true, true, true, true, true⟩

/-- src/config.py `MAX_STYLE_ATTRIBUTE_LENGTH`. -/
def MAX_STYLE_ATTRIBUTE_LENGTH : Nat := 500

/-- Matcher for `<tag[^>]*>.*?</tag>` (DOTALL, IGNORECASE): the literal
open prefix, everything up to the first `>`, then lazily up to the first
closing literal.  `openPat` is e.g. `"<script"`, `closePat` `"</script>"`. -/
def blockMatch (openPat closePat : List Char) (s : List Char) : Option (List Char) :=
  if startsWithCI openPat s then
    match dropThroughChar '>' (List.drop openPat.length s) with
    | none => none
    | some afterOpen => dropThroughCI closePat afterOpen
  else none

/-- `_remove_scripts`: `re.sub(r'<script[^>]*>.*?</script>', '', ·)` then
the same for `noscript`. -/
def remove_scripts (s : List Char) : List Char :=
  let s1 := scanSub (blockMatch ("<script".toList) ("</script>".toList)) (fun _ => [])
    (s.length + 1) s
  scanSub (blockMatch ("<noscript".toList) ("</noscript>".toList)) (fun _ => [])
    (s1.length + 1) s1

/-- Matcher for `\s*on\w+\s*=\s*["\'][^"\']*["\']` (IGNORECASE).  All the
quantifiers here are forced: `\s*` runs cannot overlap `on`, `\w+` cannot
overlap `\s*=`, and `[^"\']*` stops at the first quote of either kind. -/
def eventHandlerMatch (s : List Char) : Option (List Char) :=
  let s1 := s.dropWhile pyIsSpace
  if startsWithCI ("on".toList) s1 then
    let s2 := List.drop 2 s1
    if (s2.takeWhile pyIsWord).isEmpty then none
    else
      match (s2.dropWhile pyIsWord).dropWhile pyIsSpace with
      | '=' :: s3 =>
        match s3.dropWhile pyIsSpace with
        | q :: s4 =>
          if q == '"' || q == '\'' then
            match s4.dropWhile (fun c => !(c == '"' || c == '\'')) with
            | _ :: s5 => some s5
            | [] => none
          else none
        | [] => none
      | _ => none
  else none

/-- `_remove_event_handlers`. -/
def remove_event_handlers (s : List Char) : List Char :=
  scanSub eventHandlerMatch (fun _ => []) (s.length + 1) s

/-- Matcher for `href\s*=\s*["\']javascript:[^"\']*["\']` (IGNORECASE). -/
def jsLinkMatch (s : List Char) : Option (List Char) :=
  if startsWithCI ("href".toList) s then
    match (List.drop 4 s).dropWhile pyIsSpace with
    | '=' :: s2 =>
      match s2.dropWhile pyIsSpace with
      | q :: s3 =>
        if q == '"' || q == '\'' then
          if startsWithCI ("javascript:".toList) s3 then
            match (List.drop 11 s3).dropWhile (fun c => !(c == '"' || c == '\'')) with
            | _ :: s4 => some s4
            | [] => none
          else none
        else none
      | [] => none
    | _ => none
  else none

/-- `_remove_javascript_links`: the match is replaced by `href="#"`. -/
def remove_javascript_links (s : List Char) : List Char :=
  scanSub jsLinkMatch (fun _ => ("href=\"#\"".toList)) (s.length + 1) s

/-- Candidate suffixes where a literal can start inside the `[^>]*` run that
follows a tag-name prefix: every suffix beginning strictly before the first
`>` at which `lit` matches case-insensitively, in left-to-right order.
A greedy `[^>]*` before the literal tries the *last* candidate first. -/
def litCandidates (lit : List Char) : List Char → List (List Char)
  | [] => []
  | c :: cs =>
    if c == '>' then []
    else
      let rest := litCandidates lit cs
      if startsWithCI lit (c :: cs) then (c :: cs) :: rest else rest

/-- Completion of `<img[^>]*src="https?://[^"]*"[^>]*>` after the candidate
position of `src="http`: the optional `s` (forced: taken exactly when the
next character is an `s`), `://`, then greedily to the closing quote and to
the closing `>`. -/
def extImgComplete (u : List Char) : Option (List Char) :=
  let s1 := List.drop 9 u
  let s2 := match s1 with
            | c :: t => if ciMatch 's' c then t else c :: t
            | [] => []
  if startsWithCS ("://".toList) s2 then
    match dropThroughChar '"' (List.drop 3 s2) with
    | none => none
    | some afterUrl => dropThroughChar '>' afterUrl
  else none

/-- Matcher for `<img[^>]*src="https?://[^"]*"[^>]*>` (IGNORECASE); the
greedy leading `[^>]*` backtracks from the last candidate position. -/
def extImgMatch (s : List Char) : Option (List Char) :=
  if startsWithCI ("<img".toList) s then
    firstSome extImgComplete (litCandidates ("src=\"http".toList) (List.drop 4 s)).reverse
  else none

/-- The placeholder `_handle_external_images` substitutes. -/
def extImgPlaceholder : List Char :=
  ("<div style=\"padding:10px;background:#f0f0f0;border:1px dashed #ccc;text-align:center;color:#666;font-size:12px;border-radius:4px;\">🖼️ [External image - not available offline]</div>").toList

/-- `_handle_external_images`. -/
def handle_external_images (s : List Char) : List Char :=
  scanSub extImgMatch (fun _ => extImgPlaceholder) (s.length + 1) s

/-- Completion of `<img[^>]*src="data:image/[^"]*"[^>]*>` after the
candidate position of the 16-character literal `src="data:image/`. -/
def b64Complete (u : List Char) : Option (List Char) :=
  match dropThroughChar '"' (List.drop 16 u) with
  | none => none
  | some afterUrl => dropThroughChar '>' afterUrl

/-- Matcher for `<img[^>]*src="data:image/[^"]*"[^>]*>` (IGNORECASE). -/
def b64ImgMatch (s : List Char) : Option (List Char) :=
  if startsWithCI ("<img".toList) s then
    firstSome b64Complete (litCandidates ("src=\"data:image/".toList) (List.drop 4 s)).reverse
  else none

/-- The placeholder `_handle_base64_images` substitutes. -/
def b64Placeholder : List Char :=
  ("<div style=\"padding:10px;background:#fff3cd;border:1px dashed #ffc107;text-align:center;color:#856404;font-size:12px;border-radius:4px;\">📷 [Inline image removed - prevented HTML bloat]</div>").toList

/-- `_handle_base64_images`: `re.findall` all data-URI image tags, then for
each match longer than 1000 characters, `str.replace` every occurrence of
that exact text with the placeholder. -/
def handle_base64_images (s : List Char) : List Char :=
  let ms := scanFindAll b64ImgMatch (s.length + 1) s
  ms.foldl (fun acc m => if m.length > 1000 then pyReplace m b64Placeholder acc else acc) s

/-- Matcher for `style="[^"]*"` (IGNORECASE): the literal `style="`, then
greedily to the first closing `"`. -/
def styleAttrMatch (s : List Char) : Option (List Char) :=
  if startsWithCI ("style=\"".toList) s then
    dropThroughChar '"' (List.drop 7 s)
  else none

/-- Replacement used by `truncate_style` when an attribute is too long. -/
def truncatedStyle : List Char :=
  ("style=\"max-width:100%;word-wrap:break-word;\"").toList

/-- `_strip_excessive_styles`: remove `<style[^>]*>.*?</style>` blocks, then
truncate every `style="..."` attribute longer than
`MAX_STYLE_ATTRIBUTE_LENGTH` to a minimal safe default. -/
def strip_excessive_styles (s : List Char) : List Char :=
  let s1 := scanSub (blockMatch ("<style".toList) ("</style>".toList)) (fun _ => [])
    (s.length + 1) s
  scanSub styleAttrMatch
    (fun m => if m.length > MAX_STYLE_ATTRIBUTE_LENGTH then truncatedStyle else m)
    (s1.length + 1) s1

/-- Completion of `<link[^>]*rel=["\']stylesheet["\'][^>]*>` after the
candidate position of the literal `rel=`. -/
def relStylesheetComplete (u : List Char) : Option (List Char) :=
  match List.drop 4 u with
  | q :: s2 =>
    if q == '"' || q == '\'' then
      if startsWithCI ("stylesheet".toList) s2 then
        match List.drop 10 s2 with
        | q2 :: s3 => if q2 == '"' || q2 == '\'' then dropThroughChar '>' s3 else none
        | [] => none
      else none
    else none
  | [] => none

/-- Matcher for `<link[^>]*rel=["\']stylesheet["\'][^>]*>` (IGNORECASE). -/
def linkStylesheetMatch (s : List Char) : Option (List Char) :=
  if startsWithCI ("<link".toList) s then
    firstSome relStylesheetComplete (litCandidates ("rel=".toList) (List.drop 5 s)).reverse
  else none

/-- Matcher for `<link[^>]*>` (IGNORECASE). -/
def linkAnyMatch (s : List Char) : Option (List Char) :=
  if startsWithCI ("<link".toList) s then dropThroughChar '>' (List.drop 5 s)
  else none

/-- `_remove_external_stylesheets`: remove stylesheet `<link>` tags, then
all remaining `<link>` tags. -/
def remove_external_stylesheets (s : List Char) : List Char :=
  let s1 := scanSub linkStylesheetMatch (fun _ => []) (s.length + 1) s
  scanSub linkAnyMatch (fun _ => []) (s1.length + 1) s1

/-- One `(?:width|height)\s*=\s*["\']?1(?:px)?["\']?` token, at its shortest
(the trailing `(?:px)?["\']?` are optional and, when skipped, are absorbed
by the following `[^>]*`; the leading quote is forced: if the character
after `=` is a quote it must be consumed, since a quote is not `1`).
Returns the suffix just after the `1`. -/
def dimTokenEnd (u : List Char) : Option (List Char) :=
  let afterKw : Option (List Char) :=
    if startsWithCI ("width".toList) u then some (List.drop 5 u)
    else if startsWithCI ("height".toList) u then some (List.drop 6 u)
    else none
  match afterKw with
  | none => none
  | some s1 =>
    match s1.dropWhile pyIsSpace with
    | '=' :: s2 =>
      match s2.dropWhile pyIsSpace with
      | '"' :: '1' :: s3 => some s3
      | '\'' :: '1' :: s3 => some s3
      | '1' :: s3 => some s3
      | _ => none
    | _ => none

/-- First dimension token strictly before the closing `>`; returns the
suffix after its `1`. -/
def findDimToken : List Char → Option (List Char)
  | [] => none
  | c :: cs =>
    if c == '>' then none
    else
      match dimTokenEnd (c :: cs) with
      | some e => some e
      | none => findDimToken cs

/-- Matcher for the tracking-pixel pattern
`<img[^>]*(?:width|height)\s*=\s*["\']?1(?:px)?["\']?[^>]*(?:width|height)\s*=\s*["\']?1(?:px)?["\']?[^>]*>`
(IGNORECASE).  Since none of the inner pieces can contain `>`, the match,
when it exists, always ends at the first `>` after `<img`; it exists iff
two dimension tokens occur disjointly before that `>` (a successful token
contains no letter after its keyword, so tokens cannot overlap and the
leftmost-first search is complete). -/
def trackingMatch (s : List Char) : Option (List Char) :=
  if startsWithCI ("<img".toList) s then
    match findDimToken (List.drop 4 s) with
    | none => none
    | some e1 =>
      match findDimToken e1 with
      | none => none
      | some e2 => dropThroughChar '>' e2
  else none

/-- `_remove_tracking_pixels`. -/
def remove_tracking_pixels (s : List Char) : List Char :=
  scanSub trackingMatch (fun _ => []) (s.length + 1) s

/-- The `if config.STRIP_EXTERNAL_IMAGES:` guard in `sanitize`. -/
def gateExternalImages (cfg : SanitizerConfig) (s : List Char) : List Char :=
  if cfg.strip_external_images then handle_external_images s else s

/-- The `if config.STRIP_BASE64_IMAGES:` guard in `sanitize`. -/
def gateBase64Images (cfg : SanitizerConfig) (s : List Char) : List Char :=
  if cfg.strip_base64_images then handle_base64_images s else s

/-- The `if config.STRIP_INLINE_STYLES:` guard in `sanitize`. -/
def gateInlineStyles (cfg : SanitizerConfig) (s : List Char) : List Char :=
  if cfg.strip_inline_styles then strip_excessive_styles s else s

/-- The `if config.STRIP_EXTERNAL_STYLESHEETS:` guard in `sanitize`. -/
def gateStylesheets (cfg : SanitizerConfig) (s : List Char) : List Char :=
  if cfg.strip_external_stylesheets then remove_external_stylesheets s else s

/-- The `if config.STRIP_TRACKING_PIXELS:` guard in `sanitize`. -/
def gateTrackingPixels (cfg : SanitizerConfig) (s : List Char) : List Char :=
  if cfg.strip_tracking_pixels then remove_tracking_pixels s else s

/-- `HTMLSanitizer.sanitize`: empty input yields empty output, otherwise
the rules run in the fixed order, the last five gated by configuration. -/
def sanitize (cfg : SanitizerConfig) (s : List Char) : List Char :=
  if s.isEmpty then []
  else
    gateTrackingPixels cfg (gateStylesheets cfg (gateInlineStyles cfg
      (gateBase64Images cfg (gateExternalImages cfg
        (remove_javascript_links (remove_event_handlers (remove_scripts s)))))))

/-! ## utils.py — strip_html_tags and sanitize_filename -/

/-- Matcher for `<[^>]+>`: a `<`, at least one non-`>` character, then `>`. -/
def tagMatch (s : List Char) : Option (List Char) :=
  match s with
  | '<' :: c :: rest => if c == '>' then none else dropThroughChar '>' (c :: rest)
  | _ => none

/-- Matcher for `\s+`: a nonempty whitespace run. -/
def wsRunMatch (s : List Char) : Option (List Char) :=
  match s with
  | c :: cs => if pyIsSpace c then some (cs.dropWhile pyIsSpace) else none
  | [] => none

/-- `utils.strip_html_tags`: drop script and style blocks, drop every
remaining tag, collapse whitespace runs to single spaces, and strip. -/
def strip_html_tags (s : List Char) : List Char :=
  if s.isEmpty then []
  else
    let s1 := scanSub (blockMatch ("<script".toList) ("</script>".toList)) (fun _ => [])
      (s.length + 1) s
    let s2 := scanSub (blockMatch ("<style".toList) ("</style>".toList)) (fun _ => [])
      (s1.length + 1) s1
    let s3 := scanSub tagMatch (fun _ => []) (s2.length + 1) s2
    let s4 := scanSub wsRunMatch (fun _ => [' ']) (s3.length + 1) s3
    pyStrip s4

/-- The character class kept by `re.sub(r'[^\w\s.-]', '_', ·)` in
`utils.sanitize_filename` (ASCII reading of `\w` and `\s`). -/
def keepFilenameChar (c : Char) : Bool :=
  pyIsWord c || pyIsSpace c || c == '.' || c == '-'

/-- `str.rsplit('.', 1)` when a dot is present: the text before the last
dot and the text after it. -/
def rsplitDot (s : List Char) : Option (List Char × List Char) :=
  if s.reverse.any (fun c => c == '.') then
    some (((s.reverse.dropWhile (fun c => c != '.')).tail).reverse,
          (s.reverse.takeWhile (fun c => c != '.')).reverse)
  else none

/-- The length-limiting step of `utils.sanitize_filename`: over 255
characters, truncate preserving the extension after the last dot when one
exists. -/
def limitLength (f : List Char) : List Char :=
  if f.length > 255 then
    match rsplitDot f with
    | some (name, ext) => name.take 250 ++ '.' :: ext
    | none => f.take 255
  else f

/-- `utils.sanitize_filename`: strip `..` pairs, turn both path separators
into underscores, replace every character outside the kept class with an
underscore, then limit the length. -/
def sanitize_filename (filename : List Char) : List Char :=
  if filename.isEmpty then ("unnamed_file".toList)
  else
    limitLength
      ((pyReplace ("\\".toList) ("_".toList)
        (pyReplace ("/".toList) ("_".toList)
          (pyReplace ("..".toList) [] filename))).map
        (fun c => if keepFilenameChar c then c else '_'))

/-! ## email_parser.py — body resolution (the spec's BodyResolver)

`msg.walk()` linearizes the part tree depth-first, the containing multipart
nodes included (their `get_payload(decode=True)` is `None`, so they are
skipped by the payload test).  A multipart message is therefore modelled by
its walk sequence; a non-multipart message by its single content type and
payload.  A part's `payload` field is the *decoded* payload,
`none` modelling `get_payload(decode=True)` returning `None` or `b""`
(the `if not payload: continue` test). -/

structure EmailPart where
  content_type : List Char
  content_disposition : List Char
  payload : Option (List Char)

inductive EmailMessage where
  | single (content_type : List Char) (payload : Option (List Char))
  | multipart (walkParts : List EmailPart)

/-- The loop body of `_extract_email_body`'s multipart branch: skip parts
whose disposition mentions "attachment", skip absent payloads, then record
the decoded payload over the current `(body_text, body_html)` pair when the
content type is exactly text/plain respectively text/html. -/
def partStep (acc : List Char × List Char) (p : EmailPart) : List Char × List Char :=
  if containsSub ("attachment".toList) p.content_disposition then acc
  else
    match p.payload with
    | none => acc
    | some d =>
      if p.content_type = ("text/plain".toList) then (d, acc.2)
      else if p.content_type = ("text/html".toList) then (acc.1, d)
      else acc

/-- The `(body_text, body_html)` pair after the multipart walk loop. -/
def bodyCandidates (parts : List EmailPart) : List Char × List Char :=
  parts.foldl partStep ([], [])

/-- The non-multipart branch of `_extract_email_body`: a text/html content
type fills `body_html` (plain text extracted from it later), anything else
fills `body_text`.  (The `except` fallback is dead in this model because
decoding with `errors='ignore'` cannot raise.) -/
def singleCandidates (ctype : List Char) (payload : Option (List Char)) :
    List Char × List Char :=
  match payload with
  | none => ([], [])
  | some d => if ctype = ("text/html".toList) then ([], d) else (d, [])

/-- `body_text` as it stands before the final selection. -/
def textCandidate : EmailMessage → List Char
  | .single ct p => (singleCandidates ct p).1
  | .multipart parts => (bodyCandidates parts).1

/-- `body_html` as it stands before the final selection. -/
def htmlCandidate : EmailMessage → List Char
  | .single ct p => (singleCandidates ct p).2
  | .multipart parts => (bodyCandidates parts).2

/-- The HTML-in-plaintext marker list (`html_indicators`).  The last entry
`<!DOCTYPE` is checked against the *lowercased* text exactly as in the
source, where it can never match. -/
def html_indicators : List (List Char) :=
  [("<html".toList), ("<head".toList), ("<body".toList), ("<div".toList),
   ("<table".toList), ("<style".toList), ("<!DOCTYPE".toList)]

/-- `any(indicator in text_lower for indicator in html_indicators)`. -/
def hasHtmlMarkers (t : List Char) : Bool :=
  html_indicators.any (fun ind => containsSub ind (toLowerL t))

/-- The final selection at the end of `_extract_email_body` (lines 231-253):
an explicit HTML part wins; otherwise a nonempty `body_text` containing a
marker is reclassified as the HTML body; the returned plain text is
`body_text or strip_html_tags(body_html)`. -/
def finalSelect (body_text body_html : List Char) : List Char × List Char × Bool :=
  if body_html ≠ [] then
    ((if body_text ≠ [] then body_text else strip_html_tags body_html), body_html, true)
  else if hasHtmlMarkers body_text then
    (body_text, body_text, true)
  else
    (body_text, body_text, false)

/-- `_extract_email_body`: returns `(body_text, body_html, is_html)`. -/
def extract_email_body (m : EmailMessage) : List Char × List Char × Bool :=
  finalSelect (textCandidate m) (htmlCandidate m)

/-- src/config.py `EMAIL_PREVIEW_LENGTH`. -/
def EMAIL_PREVIEW_LENGTH : Nat := 200

/-- The preview built by `_parse_single_email`:
`body_text[:200].replace('\n', ' ').strip()`, plus `'...'` when the body is
longer than the limit. -/
def mkPreview (body_text : List Char) : List Char :=
  let p := pyStrip ((body_text.take EMAIL_PREVIEW_LENGTH).map
    (fun c => if c == '\n' then ' ' else c))
  if body_text.length > EMAIL_PREVIEW_LENGTH then p ++ ("...".toList) else p

/-! ## parse_emails_streaming / main.py — run-level failure policy

`parse_emails_streaming` catches every failure of `mailbox.mbox(path)`
(FileNotFoundError, PermissionError, anything else), logs it and returns
without yielding; per-message failures inside the loop are caught, logged
and skipped.  `main` exits with status 1 when the input path does not
exist, and again when zero records came back ("No emails found").
The container-open outcome is modelled as an `Except`, one message's
processing outcome as an `Option` (`none` = the per-message exception). -/

inductive OpenFailure where
  | fileNotFound
  | permissionDenied
  | otherFailure

inductive RunOutcome (α : Type) where
  | exited (code : Nat)
  | completed (records : List α)
  deriving DecidableEq

/-- `parse_all_emails` (driving `parse_emails_streaming`): an open failure
yields no records at all; a per-message failure skips just that message. -/
def parse_all_emails {α : Type} (openResult : Except OpenFailure (List (Option α))) :
    List α :=
  match openResult with
  | .error _ => []
  | .ok msgs => msgs.filterMap id

/-- `main` (src/main.py lines 57-97): missing input file exits with 1;
otherwise parse, and exit with 1 when no records were produced. -/
def mainRun {α : Type} (fileExists : Bool)
    (openResult : Except OpenFailure (List (Option α))) : RunOutcome α :=
  if !fileExists then .exited 1
  else
    let emails := parse_all_emails openResult
    if emails.isEmpty then .exited 1
    else .completed emails

/-! ## Spec-side reference definitions (for refinement statements only) -/

/-- Modelled from the spec's words for comparison with `bodyCandidates`:
the payload of the *last* non-attachment part of the given content type
that has a decodable payload, if any.  (The spec says the *first* such part
wins; this is the same selection with "first" replaced by "last".) -/
def lastPayloadOf (ctype : List Char) : List EmailPart → Option (List Char)
  | [] => none
  | p :: ps =>
    match lastPayloadOf ctype ps with
    | some d => some d
    | none =>
      if containsSub ("attachment".toList) p.content_disposition then none
      else if p.content_type = ctype then p.payload else none

/-- The boundary-test tag for the base64-image threshold: an `<img>` whose
`src` is a data-image URI with an `n`-character base64 body; its serialized
length is `n + 34`. -/
def mkB64Tag (n : Nat) : List Char :=
  ("<img src=\"data:image/png;base64,".toList) ++ List.replicate n 'A' ++ ("\">".toList)

/-! ## Helper lemmas -/

theorem scanSub_nil (m : List Char → Option (List Char)) (rep : List Char → List Char) :
    ∀ n, scanSub m rep n [] = []
  | 0 => rfl
  | _ + 1 => rfl

theorem ciMatch_self (c : Char) : ciMatch c c = true := by
  simp [ciMatch]

theorem startsWithCI_refl (p : List Char) : startsWithCI p p = true := by
  induction p with
  | nil => rfl
  | cons c cs ih => simp [startsWithCI, ciMatch_self, ih]

theorem ciMatch_lt (c : Char) : ciMatch '<' c = ('<' == c) := by
  simp [ciMatch]

/-- If no character of `inner` is `<`, then the first occurrence of a
pattern starting with `<` in `inner ++ pat` is the final copy of `pat`. -/
theorem dropThroughCI_append_self (pt : List Char) (inner : List Char)
    (h : ∀ c ∈ inner, c ≠ '<') :
    dropThroughCI ('<' :: pt) (inner ++ '<' :: pt) = some [] := by
  induction inner with
  | nil =>
    simp only [List.nil_append, dropThroughCI, startsWithCI_refl, if_true]
    simp [List.drop_length]
  | cons c cs ih =>
    have hc : ('<' == c) = false := by
      have := h c (List.mem_cons_self c cs)
      simp [BEq.beq]
      exact fun he => this he.symm
    simp only [List.cons_append, dropThroughCI, startsWithCI, ciMatch_lt, hc,
      Bool.false_and, if_false]
    exact ih (fun d hd => h d (List.mem_cons_of_mem c hd))

/-- On a whole script element whose body contains no `<`, the script-block
matcher consumes the entire input. -/
theorem blockMatch_script_full (inner : List Char) (h : ∀ c ∈ inner, c ≠ '<') :
    blockMatch ("<script".toList) ("</script>".toList)
      ('<' :: 's' :: 'c' :: 'r' :: 'i' :: 'p' :: 't' :: '>' ::
        (inner ++ ("</script>".toList))) = some [] := by
  have hclose : ("</script>".toList) = '<' :: ['/', 's', 'c', 'r', 'i', 'p', 't', '>'] := rfl
  have hopen : ("<script".toList) = ['<', 's', 'c', 'r', 'i', 'p', 't'] := rfl
  rw [blockMatch, hopen]
  simp only [startsWithCI, ciMatch_self, Bool.true_and, if_true]
  simp only [List.length_cons, List.length_nil, List.drop_succ_cons, List.drop_zero]
  simp only [dropThroughChar, beq_self_eq_true, if_true]
  rw [hclose]
  exact dropThroughCI_append_self _ inner h

/-- `_remove_scripts` erases a whole script element whose body has no `<`. -/
theorem remove_scripts_full (inner : List Char) (h : ∀ c ∈ inner, c ≠ '<') :
    remove_scripts (("<script>".toList) ++ inner ++ ("</script>".toList)) = [] := by
  have hs : ("<script>".toList) ++ inner ++ ("</script>".toList)
      = '<' :: 's' :: 'c' :: 'r' :: 'i' :: 'p' :: 't' :: '>' ::
        (inner ++ ("</script>".toList)) := by
    simp [List.cons_append]
  have h1 : scanSub (blockMatch ("<script".toList) ("</script>".toList)) (fun _ => [])
      ((("<script>".toList) ++ inner ++ ("</script>".toList)).length + 1)
      (("<script>".toList) ++ inner ++ ("</script>".toList)) = [] := by
    rw [hs]
    simp only [List.length_cons, scanSub, blockMatch_script_full inner h]
    simp [scanSub_nil]
  rw [remove_scripts]
  simp only [h1]
  rfl

/-- Replacing newlines does nothing to a newline-free string. -/
theorem map_collapse_eq_self (l : List Char) (h : '\n' ∉ l) :
    l.map (fun c => if c == '\n' then ' ' else c) = l := by
  induction l with
  | nil => rfl
  | cons c cs ih =>
    have hne : ¬ (c = '\n') := by
      intro he
      exact h (by rw [he]; exact List.mem_cons_self _ _)
    have htail : '\n' ∉ cs := fun hm => h (List.mem_cons_of_mem _ hm)
    have hc : (c == '\n') = false := beq_eq_false_iff_ne.mpr hne
    rw [List.map_cons, ih htail]
    simp [hc]

/-- Every character of the class-filtered stage of `sanitize_filename` is in
the kept class. -/
theorem keep_of_mem_filtered (l : List Char) (c : Char)
    (hc : c ∈ l.map (fun c => if keepFilenameChar c then c else '_')) :
    keepFilenameChar c = true := by
  rcases List.mem_map.mp hc with ⟨a, _, rfl⟩
  by_cases h : keepFilenameChar a = true
  · rwa [if_pos h]
  · rw [if_neg h]
    decide

/-- Both pieces of `rsplitDot` are made of characters of the input. -/
theorem rsplitDot_mem (l name ext : List Char)
    (h : rsplitDot l = some (name, ext)) :
    (∀ c ∈ name, c ∈ l) ∧ (∀ c ∈ ext, c ∈ l) := by
  unfold rsplitDot at h
  split at h
  · injection h with h'
    injection h' with hn he
    subst hn; subst he
    constructor
    · intro c hc
      rw [List.mem_reverse] at hc
      have := (List.tail_sublist _).mem hc
      have := (List.dropWhile_sublist _).mem this
      rwa [List.mem_reverse] at this
    · intro c hc
      rw [List.mem_reverse] at hc
      have := (List.takeWhile_sublist _).mem hc
      rwa [List.mem_reverse] at this
  · cases h

/-- Every character of `sanitize_filename`'s output is in the kept class
(letters, digits, underscore, whitespace, dot, hyphen). -/
theorem sanitize_filename_chars (s : List Char) :
    ∀ c ∈ sanitize_filename s, keepFilenameChar c = true := by
  intro c hc
  unfold sanitize_filename at hc
  split at hc
  · exact List.all_eq_true.mp (by decide) c hc
  · unfold limitLength at hc
    split at hc
    · split at hc
      next name ext hsplit =>
        rcases List.mem_append.mp hc with hmem | hmem
        · have := (List.take_sublist _ _).mem hmem
          exact keep_of_mem_filtered _ _ ((rsplitDot_mem _ _ _ hsplit).1 c this)
        · rcases List.mem_cons.mp hmem with rfl | hmem
          · decide
          · exact keep_of_mem_filtered _ _ ((rsplitDot_mem _ _ _ hsplit).2 c hmem)
      next hsplit =>
        exact keep_of_mem_filtered _ _ ((List.take_sublist _ _).mem hc)
    · exact keep_of_mem_filtered _ _ hc

/-- The multipart walk loop is a left fold whose text/plain and text/html
slots each hold the *last* qualifying payload seen so far. -/
theorem foldl_partStep_eq (parts : List EmailPart) :
    ∀ t h : List Char,
      parts.foldl partStep (t, h)
        = ((lastPayloadOf ("text/plain".toList) parts).getD t,
           (lastPayloadOf ("text/html".toList) parts).getD h) := by
  induction parts with
  | nil => intro t h; rfl
  | cons p ps ih =>
    intro t h
    rw [List.foldl_cons, ih]
    show _ = ((lastPayloadOf _ (p :: ps)).getD t, (lastPayloadOf _ (p :: ps)).getD h)
    rw [lastPayloadOf, lastPayloadOf]
    cases hpl : lastPayloadOf ("text/plain".toList) ps <;>
      cases hph : lastPayloadOf ("text/html".toList) ps <;>
        by_cases hA : containsSub ("attachment".toList) p.content_disposition = true <;>
          cases hp : p.payload <;>
            simp_all [partStep] <;>
              by_cases hplain : p.content_type = ("text/plain".toList) <;>
                by_cases hhtml : p.content_type = ("text/html".toList) <;>
                  simp_all

/-! ## Claim theorems -/

/-- Claim C1, counterexample: in a multipart message whose walk holds two
non-attachment text/plain parts with payloads "A" then "B", the resolved
plain-text candidate is "B" — the payload of the *last* such part, not the
first as the claim states. -/
theorem C1_counterexample :
    extract_email_body (.multipart
      [⟨("multipart/alternative".toList), [], none⟩,
       ⟨("text/plain".toList), [], some ("A".toList)⟩,
       ⟨("text/plain".toList), [], some ("B".toList)⟩])
      = (("B".toList), ("B".toList), false)
    ∧ ("B".toList) ≠ ("A".toList) := by
  refine ⟨by decide, by decide⟩

/-- Claim C1 as amended: in the multipart traversal the *last* matching
non-attachment part of each of the two media types wins — the loop slots
hold exactly the last qualifying payload (default empty), so every earlier
part of the same type is overwritten, not every later one ignored. -/
theorem C1_last_wins (parts : List EmailPart) :
    bodyCandidates parts
      = ((lastPayloadOf ("text/plain".toList) parts).getD [],
         (lastPayloadOf ("text/html".toList) parts).getD []) :=
  foldl_partStep_eq parts [] []

/-- Claim C2, counterexample: a single-part text/plain message whose text is
`<div>Hello</div>` is classified as HTML by the heuristic, yet the returned
plain-text body — the string the preview is built from — is the raw HTML
itself (the preview equals the raw markup, not the stripped text "Hello"). -/
theorem C2_counterexample :
    extract_email_body (.single ("text/plain".toList) (some ("<div>Hello</div>".toList)))
      = (("<div>Hello</div>".toList), ("<div>Hello</div>".toList), true)
    ∧ mkPreview ("<div>Hello</div>".toList) = ("<div>Hello</div>".toList)
    ∧ strip_html_tags ("<div>Hello</div>".toList) = ("Hello".toList) := by
  refine ⟨by decide, by decide, by decide⟩

/-- Claim C2 as amended: when the HTML was detected heuristically inside a
text/plain part (no explicit HTML candidate), the plain-text body the
preview derives from *is* the raw HTML body itself; a markup-stripped
rendering is used only when an explicit HTML part exists and no plain-text
candidate does. -/
theorem C2_preview_source (m : EmailMessage) :
    (htmlCandidate m = [] → (extract_email_body m).2.2 = true →
      (extract_email_body m).1 = (extract_email_body m).2.1)
    ∧ (htmlCandidate m ≠ [] → textCandidate m = [] →
      (extract_email_body m).1 = strip_html_tags (htmlCandidate m)) := by
  constructor
  · intro h1 h2
    by_cases hm : hasHtmlMarkers (textCandidate m) = true
    · unfold extract_email_body
      rw [h1]
      unfold finalSelect
      simp [hm]
    · unfold extract_email_body at h2 ⊢
      rw [h1] at h2 ⊢
      unfold finalSelect at h2 ⊢
      simp [hm] at h2
  · intro h1 h2
    unfold extract_email_body finalSelect
    rw [if_pos h1, if_neg (by simp [h2])]

/-- Claim C2 witness: the amended statement applied to the heuristic
counterexample message. -/
theorem C2_preview_source_witness :
    (extract_email_body (.single ("text/plain".toList)
        (some ("<div>Hello</div>".toList)))).1
      = (extract_email_body (.single ("text/plain".toList)
          (some ("<div>Hello</div>".toList)))).2.1 :=
  (C2_preview_source _).1 (by decide) (by decide)

/-- Claim C3, counterexample: sanitize is not idempotent — on
`<scr<script></script>ipt>x</script>` one pass produces
`<script>x</script>` (splicing reassembles a script element), and a second
pass removes it. -/
theorem C3_counterexample :
    sanitize defaultConfig ("<scr<script></script>ipt>x</script>".toList)
      = ("<script>x</script>".toList)
    ∧ sanitize defaultConfig
        (sanitize defaultConfig ("<scr<script></script>ipt>x</script>".toList))
      ≠ sanitize defaultConfig ("<scr<script></script>ipt>x</script>".toList) := by
  refine ⟨by decide, by decide⟩

/-- Claim C3 as amended: sanitize does not change an already-clean input
further — whenever one pass leaves `x` unchanged, a second pass does too;
full idempotence fails because removal can splice new removable constructs
together. -/
theorem C3_idempotent_on_clean (x : List Char) (h : sanitize defaultConfig x = x) :
    sanitize defaultConfig (sanitize defaultConfig x) = sanitize defaultConfig x := by
  rw [h]
  exact h

/-- Claim C3 witness: `<p>Hi</p>` is already clean and stays fixed. -/
theorem C3_idempotent_on_clean_witness :
    sanitize defaultConfig (sanitize defaultConfig ("<p>Hi</p>".toList))
      = sanitize defaultConfig ("<p>Hi</p>".toList) :=
  C3_idempotent_on_clean ("<p>Hi</p>".toList) (by decide)

/-- Claim C4, counterexample: the input `<script>a</script>script` contains
a script block, yet the sanitized output is the literal string "script". -/
theorem C4_counterexample :
    (blockMatch ("<script".toList) ("</script>".toList)
      ("<script>a</script>script".toList)).isSome = true
    ∧ sanitize defaultConfig ("<script>a</script>script".toList) = ("script".toList)
    ∧ containsSub ("script".toList)
        (sanitize defaultConfig ("<script>a</script>script".toList)) = true := by
  refine ⟨by decide, by decide, by decide⟩

/-- Claim C4 as amended: each matched script block is removed whole — an
input consisting of one `<script>...</script>` element whose body contains
no `<` sanitizes to the empty string; but the substring "script" can
survive in the output when it occurs outside a matched block (or is
reassembled by the removal splice). -/
theorem C4_script_block_removed (inner : List Char) (h : ∀ c ∈ inner, c ≠ '<') :
    sanitize defaultConfig (("<script>".toList) ++ inner ++ ("</script>".toList)) = [] := by
  have hrs := remove_scripts_full inner h
  unfold sanitize
  rw [if_neg (by simp)]
  rw [hrs]
  decide

/-- Claim C4 witness: the amended statement at body `alert(1)`. -/
theorem C4_script_block_removed_witness :
    sanitize defaultConfig
      (("<script>".toList) ++ ("alert(1)".toList) ++ ("</script>".toList)) = [] :=
  C4_script_block_removed ("alert(1)".toList) (by decide)

set_option maxRecDepth 10000 in
/-- Claim C5, counterexample: `sanitize_filename ".."` is the *empty*
string (the `..`-removal deletes the whole name), and a 264-character name
`aaa…a.bbbbbbbbbb.txt` is truncated to `aaa…a..txt`, which contains the
`..` sequence — so neither "always non-empty" nor "contains no `..`"
holds. -/
theorem C5_counterexample :
    sanitize_filename ("..".toList) = []
    ∧ containsSub ("..".toList)
        (sanitize_filename ((List.replicate 249 'a')
          ++ ('.' :: List.replicate 10 'b') ++ (".txt".toList))) = true := by
  refine ⟨by decide, by decide⟩

/-- Claim C5 as amended: for every input the output contains no `/` and no
`\` path separator, and the empty input yields the fixed placeholder; but
the output may be empty for a non-empty input (e.g. `".."`) and may contain
`..` when extension-preserving truncation re-joins a trailing dot. -/
theorem C5_no_separators :
    (∀ s : List Char, (sanitize_filename s).contains '/' = false
      ∧ (sanitize_filename s).contains '\\' = false)
    ∧ sanitize_filename [] = ("unnamed_file".toList) := by
  refine ⟨fun s => ⟨?_, ?_⟩, by decide⟩
  · cases hc : (sanitize_filename s).contains '/'
    · rfl
    · exact absurd (sanitize_filename_chars s '/' (List.elem_iff.mp hc)) (by decide)
  · cases hc : (sanitize_filename s).contains '\\'
    · rfl
    · exact absurd (sanitize_filename_chars s '\\' (List.elem_iff.mp hc)) (by decide)

set_option maxRecDepth 10000 in
/-- Claim C6: the base64-image threshold boundary — a data-image `<img>`
tag serialized at exactly 1000 characters passes `sanitize` unchanged,
while the same tag at 1001 characters is replaced by the inert placeholder
block. -/
theorem C6_base64_threshold :
    (mkB64Tag 966).length = 1000
    ∧ sanitize defaultConfig (mkB64Tag 966) = mkB64Tag 966
    ∧ (mkB64Tag 967).length = 1001
    ∧ sanitize defaultConfig (mkB64Tag 967) = b64Placeholder := by
  refine ⟨by decide, by decide, by decide, by decide⟩

/-- Claim C7, counterexample: `<img width="10" height="1">` does not
declare both dimensions equal to 1, yet `sanitize` removes it — the
pattern only anchors the *first* character of each dimension value. -/
theorem C7_counterexample :
    sanitize defaultConfig ("<img width=\"10\" height=\"1\">".toList) = [] := by
  decide

/-- Claim C7 as amended: the tracking-pixel rule removes every `<img>` tag
whose text contains two width/height `=` tokens whose value *begins* with
`1` (optionally quoted, optionally `px`-suffixed).  Declaring both
dimensions exactly 1 is sufficient but not necessary: 1×1 tags (with or
without `px`) are removed, `width="10" height="1"` is removed too, and a
2×2 tag is kept. -/
theorem C7_tracking_overreach :
    sanitize defaultConfig ("<img width=\"1\" height=\"1\">".toList) = []
    ∧ sanitize defaultConfig ("<img width=\"1px\" height=\"1px\">".toList) = []
    ∧ sanitize defaultConfig ("<img width=\"10\" height=\"1\">".toList) = []
    ∧ sanitize defaultConfig ("<img width=\"2\" height=\"2\">".toList)
        = ("<img width=\"2\" height=\"2\">".toList) := by
  refine ⟨by decide, by decide, by decide, by decide⟩

set_option maxRecDepth 4000 in
/-- Claim C8, counterexample: the preview is `.strip()`ed after truncation,
so a 2-character body `" a"` (well under the limit) yields preview `"a"`,
not the body unchanged; and a 201-space body yields just `"..."`, not 200
characters plus the ellipsis. -/
theorem C8_counterexample :
    (" a".toList).length ≤ EMAIL_PREVIEW_LENGTH
    ∧ mkPreview (" a".toList) = ("a".toList)
    ∧ (" a".toList) ≠ ("a".toList)
    ∧ (List.replicate 201 ' ').length > EMAIL_PREVIEW_LENGTH
    ∧ mkPreview (List.replicate 201 ' ') = ("...".toList) := by
  refine ⟨by decide, by decide, by decide, by decide, by decide⟩

/-- Claim C8 as amended: the preview is the newline-collapsed, stripped
prefix of the configured length, plus the ellipsis exactly when the body is
strictly longer; the claim's exact-length form holds when the relevant
prefix contains no newline and no leading or trailing whitespace. -/
theorem C8_preview_truncation (body : List Char) :
    (body.length ≤ EMAIL_PREVIEW_LENGTH → '\n' ∉ body → pyStrip body = body →
      mkPreview body = body)
    ∧ (body.length > EMAIL_PREVIEW_LENGTH →
        '\n' ∉ body.take EMAIL_PREVIEW_LENGTH →
        pyStrip (body.take EMAIL_PREVIEW_LENGTH) = body.take EMAIL_PREVIEW_LENGTH →
        mkPreview body = body.take EMAIL_PREVIEW_LENGTH ++ ("...".toList)) := by
  constructor
  · intro h1 h2 h3
    unfold mkPreview
    rw [List.take_of_length_le h1, map_collapse_eq_self body h2, h3, if_neg (by omega)]
  · intro h1 h2 h3
    unfold mkPreview
    rw [map_collapse_eq_self _ h2, h3, if_pos h1]

set_option maxRecDepth 2000 in
/-- Claim C8 witness: the amended statement at a short clean body and at a
201-character clean body. -/
theorem C8_preview_truncation_witness :
    mkPreview ("hello".toList) = ("hello".toList)
    ∧ mkPreview (List.replicate 201 'x')
        = (List.replicate 201 'x').take EMAIL_PREVIEW_LENGTH ++ ("...".toList) :=
  ⟨(C8_preview_truncation ("hello".toList)).1 (by decide) (by decide) (by decide),
   (C8_preview_truncation (List.replicate 201 'x')).2 (by decide) (by decide) (by decide)⟩

/-- Claim C9: a top-level container failure — missing file (caught in
`main` before parsing), permission denied, or any other open failure
(yielding zero records and the "No emails found" exit) — makes the run
exit with status 1 and produce no records, unlike a per-message failure
which merely skips that message. -/
theorem C9_open_failure_aborts {α : Type} (fileExists : Bool)
    (openResult : Except OpenFailure (List (Option α)))
    (h : fileExists = false ∨ ∃ e, openResult = .error e) :
    mainRun fileExists openResult = .exited 1 := by
  rcases h with rfl | ⟨e, rfl⟩
  · rfl
  · cases fileExists
    · rfl
    · rfl

/-- Claim C9 witness: an existing path whose open raises
FileNotFoundError (e.g. removed concurrently) still exits with 1. -/
theorem C9_open_failure_aborts_witness :
    mainRun true (Except.error OpenFailure.fileNotFound
      : Except OpenFailure (List (Option Nat))) = .exited 1 :=
  C9_open_failure_aborts true _ (Or.inr ⟨OpenFailure.fileNotFound, rfl⟩)

/-- Claim C10: when the body is not classified as HTML and the plain-text
candidate is non-empty, the HTML body field is a copy of the plain text
(the non-HTML return is `(body_text, body_text, False)`). -/
theorem C10_plain_html_copy (m : EmailMessage)
    (h1 : (extract_email_body m).2.2 = false)
    (h2 : (extract_email_body m).1 ≠ []) :
    (extract_email_body m).2.1 = (extract_email_body m).1 := by
  unfold extract_email_body finalSelect at h1 ⊢
  by_cases ha : htmlCandidate m ≠ []
  · rw [if_pos ha] at h1
    simp at h1
  · rw [if_neg ha] at h1 ⊢
    by_cases hb : hasHtmlMarkers (textCandidate m) = true
    · rw [if_pos hb] at h1
      simp at h1
    · rw [if_neg hb]

/-- Claim C10 witness: a plain-text single-part message. -/
theorem C10_plain_html_copy_witness :
    (extract_email_body (.single ("text/plain".toList) (some ("hi".toList)))).2.1
      = (extract_email_body (.single ("text/plain".toList) (some ("hi".toList)))).1 :=
  C10_plain_html_copy _ (by decide) (by decide)
